import Mathlib

/-!
# Verification of the sycamore website's routed resource-loading core

Shallow embedding of `website/src/main.rs`: the route table (`Routes`),
the document/sidebar fetch-key derivation, the `docs_preload` and
`get_sidebar` fetch pipelines (with their panic behaviour made explicit),
the sidebar-cache logic inlined in `switch`, and the per-route render
dispatch of `switch`'s view closure, together with a small trace semantics
for the navigation lifecycle (resource supersession via generation
tokens, modelled from the spec where the framework code is outside the
embedded source).
-/

namespace Sycamore

/-- Opaque parsed document payload (`content::MarkdownPage`); its internal
shape belongs to the rendering collaborator, so it is embedded as an
opaque wrapper. -/
structure MarkdownPage where
  payload : String
deriving DecidableEq, Repr

/-- Opaque sidebar dataset (`sidebar::SidebarData`), embedded as an opaque
wrapper. -/
structure SidebarData where
  payload : String
deriving DecidableEq, Repr

/-- The route enum from `main.rs` lines 24-40, with its `#[to]` patterns:
`/` → `Index`, `/docs/<_>/<_>` → `Docs`, `/docs/<_>/<_>/<_>` →
`VersionedDocs`, `/news` → `NewsIndex`, `/news/<_>` → `Post`,
`/versions` → `Versions`, `#[not_found]` → `NotFound`. -/
inductive Routes where
  | Index : Routes
  | Docs : String → String → Routes
  | VersionedDocs : String → String → String → Routes
  | NewsIndex : Routes
  | Post : String → Routes
  | Versions : Routes
  | NotFound : Routes
deriving DecidableEq, Repr

/-- Modelled from the spec: the Route Resolver "maps a requested URL into
one of a fixed set of route variants" using "a fixed, ordered set of
path-pattern rules"; the router library (part of this repository but not
among the embedded sources) splits a URL path into its non-empty `/`
separated segments and matches them against the `#[to]` patterns of
`Routes` in declaration order, a `<_>` pattern consuming exactly one
segment. This function is that matcher applied to the route table of
`main.rs` lines 24-40. -/
def matchSegments : List String → Routes
  | [] => .Index
  | ["docs", a, b] => .Docs a b
  | ["docs", v, a, b] => .VersionedDocs v a b
  | ["news"] => .NewsIndex
  | ["news", s] => .Post s
  | ["versions"] => .Versions
  | _ => .NotFound

/-- Modelled from the spec: split a character list at `/` boundaries,
accumulating the current segment in reverse. -/
def splitSlash : List Char → List Char → List String
  | [], cur => [String.mk cur.reverse]
  | c :: rest, cur =>
    if c = '/' then String.mk cur.reverse :: splitSlash rest []
    else splitSlash rest (c :: cur)

/-- Modelled from the spec: the non-empty `/` separated segments of a URL
path. -/
def pathSegments (path : String) : List String :=
  (splitSlash path.data []).filter (fun s => s ≠ "")

/-- Modelled from the spec: a URL path is resolved by splitting on `/`,
discarding empty segments, and matching the segment list. -/
def matchPath (path : String) : Routes :=
  matchSegments (pathSegments path)

/-- The document fetch key derived from the route, from `main.rs` lines
90 (`Docs`), 116 (`VersionedDocs`) and 144 (`Post`); routes that carry no
document yield `none`. -/
def docFetchKey : Routes → Option String
  | .Docs a b => some s!"/static/docs/{a}/{b}.json"
  | .VersionedDocs v a b => some s!"/static/docs/{v}/{a}/{b}.json"
  | .Post name => some s!"/static/posts/{name}.json"
  | _ => none

/-- The sidebar URL computed inside `get_sidebar` (`main.rs` lines 59-63):
versioned path for `some version`, default path otherwise. -/
def sidebarUrl : Option String → String
  | some version => s!"/static/docs/{version}/sidebar.json"
  | none => "/static/docs/sidebar.json"

/-- Result of a program fragment that may panic (Rust `unwrap` on `Err`,
or an executed `todo!`). -/
inductive PanicOr (α : Type) where
  | panics (msg : String) : PanicOr α
  | ok (a : α) : PanicOr α
deriving DecidableEq, Repr

/-- Whether a `PanicOr` result is a panic. -/
def PanicOr.isPanics : PanicOr α → Bool
  | .panics _ => true
  | .ok _ => false

/-- Outcome of one network exchange, as observed by the code after
`Request::get(path).send()` and `.text()`: the send itself may fail, the
body extraction may fail, or a body string is obtained. -/
inductive FetchOutcome where
  | sendErr : FetchOutcome
  | textErr : FetchOutcome
  | body (s : String) : FetchOutcome
deriving DecidableEq, Repr

/-- `docs_preload` (`main.rs` lines 45-56) given the network outcome for
its path and a decoder (`serde_json::from_str` composed with
`MarkdownPage::deserialize`; `none` = either step fails):
`req.await.unwrap()` panics on a send error, the `else` branch of the
`if let Ok(text)` is `todo!("error handling")`, and both decode steps are
`.unwrap()`ed. Only a successful decode of a received body yields a page. -/
def docs_preload (decodeDoc : String → Option MarkdownPage) :
    FetchOutcome → PanicOr MarkdownPage
  | .sendErr => .panics "called Result::unwrap() on an Err value"
  | .textErr => .panics "not yet implemented: error handling"
  | .body s =>
    match decodeDoc s with
    | some page => .ok page
    | none => .panics "called Result::unwrap() on an Err value"

/-- `get_sidebar` (`main.rs` lines 58-71): computes `sidebarUrl version`,
then follows the same unwrap-or-`todo!` pipeline as `docs_preload` with
the sidebar decoder. Returns the requested URL together with the result. -/
def get_sidebar (decodeSb : String → Option SidebarData) (version : Option String) :
    FetchOutcome → String × PanicOr SidebarData
  | .sendErr => (sidebarUrl version, .panics "called Result::unwrap() on an Err value")
  | .textErr => (sidebarUrl version, .panics "not yet implemented: error handling")
  | .body s =>
    (sidebarUrl version,
      match decodeSb s with
      | some d => .ok d
      | none => .panics "called Result::unwrap() on an Err value")

/-- The sidebar cache signal's content: `Option<(Option<String>, SidebarData)>`
(`main.rs` line 74). -/
abbrev SidebarCache := Option (Option String × SidebarData)

/-- The refetch condition at `main.rs` line 76:
`x.is_none() || x.as_ref().unwrap().0.is_some()`. -/
def shouldFetchSidebar : SidebarCache → Bool
  | none => true
  | some (v, _) => v.isSome

/-- The sidebar fetch the `switch` body initiates (`main.rs` lines 76-80):
when `shouldFetchSidebar` holds it requests `get_sidebar(None)`, i.e. the
URL `sidebarUrl none`; otherwise no request is made. Note the requested
version is hard-coded `None`. -/
def ensureFetch (cache : SidebarCache) : Option String :=
  if shouldFetchSidebar cache then some (sidebarUrl none) else none

/-- The cache write performed when the spawned sidebar fetch succeeds
(`main.rs` line 78): `cached_sidebar_data.set(Some((None, data)))`. -/
def ensureCommit (d : SidebarData) : SidebarCache :=
  some (none, d)

/-- The sidebar cache after the fetch's outcome is known: on success the
commit of `main.rs` line 78 runs; on a panic the spawned task dies before
`set`, so the cache keeps its previous value. -/
def ensureApply (cache : SidebarCache) : PanicOr SidebarData → SidebarCache
  | .ok d => ensureCommit d
  | .panics _ => cache

/-- Modelled from the spec: the Sidebar Cache operation
`ensure(requested_version)` as §4.2 words it — fetch decision part.
"If the cache is absent, OR the cache's stored version identifier differs
from `requested_version`, initiate an asynchronous fetch for the sidebar
resource at the version-specific path"; otherwise no fetch. Stated for
comparison with the code's `ensureFetch`. -/
def ensureSpecFetch (cache : SidebarCache) (requested : Option String) : Option String :=
  match cache with
  | none => some (sidebarUrl requested)
  | some (v, _) => if v = requested then none else some (sidebarUrl requested)

/-- Modelled from the spec: on success, `ensure(requested_version)`
"atomically replace[s] the cache with the new `SidebarEntry`", keyed by
the requested version. Stated for comparison with the code's
`ensureCommit`. -/
def ensureSpecCommit (requested : Option String) (d : SidebarData) : SidebarCache :=
  some (requested, d)

/-- Modelled from the spec: the sidebar version a route requests — §4.4,
"its target version (derived from `VersionedDocs`'s version segment, or
'default' otherwise)". -/
def routeRequestedVersion : Routes → Option String
  | .VersionedDocs v _ _ => some v
  | _ => none

end Sycamore

namespace Sycamore

/-- The sidebar argument built for `content::Content` at `main.rs` lines
98-102 and 125-129, with the fields `SidebarCurrent` is constructed with
there: a version string, a `{section}/{slug}` path, and the sidebar data. -/
structure SidebarCurrent where
  version : String
  path : String
  data : SidebarData
deriving DecidableEq, Repr

/-- What the view closure of `switch` (`main.rs` lines 82-162) hands the
render collaborator for one route, given the document resource state and
the sidebar cache signal: a full document view with sidebar, a document
view without sidebar (`Post`), an empty/loading view, or a static view
(`Index`, `NewsIndex`, `Versions`, the 404 text). -/
inductive RenderOut where
  | content (page : MarkdownPage) (sb : SidebarCurrent) : RenderOut
  | post (page : MarkdownPage) : RenderOut
  | empty : RenderOut
  | static (which : String) : RenderOut
deriving DecidableEq, Repr

/-- Whether a render output is a full document-with-sidebar view. -/
def RenderOut.isContent : RenderOut → Bool
  | .content _ _ => true
  | _ => false

/-- The match over `route.get_clone()` in `switch` (`main.rs` lines
82-162), as a function of the current route, the current document
resource value (`data.get_clone()`, `None` while pending) and the sidebar
cache signal. `Docs` renders `Content` when both the document and the
cache are `Some`, with the hard-coded version string `"next"` (line 99);
`VersionedDocs` does the same with the route's version segment (lines
119-131); neither compares the cached version key with the route;
`Post` needs only the document (lines 146-154). -/
def renderView (route : Routes) (doc : Option MarkdownPage) (cache : SidebarCache) :
    RenderOut :=
  match route with
  | .Index => .static "index"
  | .Docs a b =>
    match doc, cache with
    | some d, some c => .content d ⟨"next", a ++ "/" ++ b, c.2⟩
    | _, _ => .empty
  | .VersionedDocs v a b =>
    match doc, cache with
    | some d, some c => .content d ⟨v, a ++ "/" ++ b, c.2⟩
    | _, _ => .empty
  | .NewsIndex => .static "news_index"
  | .Post _ =>
    match doc with
    | some d => .post d
    | none => .empty
  | .Versions => .static "versions"
  | .NotFound => .static "404 Not Found"

/-- One document resource instance, as created by
`create_client_resource(move || docs_preload(&url))` inside a route match
arm: the fetch key it was started for, plus a generation token. Modelled
from the spec: the framework's resource machinery (part of this
repository but outside the embedded source) "require[s] each async fetch
to carry a generation/instance token; on completion, the orchestrator
checks the token against 'is this still the current fetch for this slot'
before committing the result" (§9), each navigation superseding the prior
instance (§4.3 rule 5). -/
structure DocResource where
  gen : Nat
  url : String
deriving DecidableEq, Repr

/-- The orchestrator state over one router construction: the sidebar
cache signal, the log of sidebar fetch URLs issued, the current document
resource slot with its three observable fields, the next generation
token, and the log of document fetches issued. -/
structure Sys where
  cachedSidebar : SidebarCache
  sidebarFetches : List String
  docRes : Option DocResource
  docState : Option MarkdownPage
  nextGen : Nat
  docFetches : List (Nat × String)
deriving DecidableEq, Repr

/-- The state right after `switch` runs (`main.rs` lines 73-80): the
cache signal is created holding `None`, the refetch condition is
evaluated once on that fresh signal, and if it holds the single sidebar
fetch for `sidebarUrl none` is spawned. No route arm has run yet. -/
def initSys : Sys where
  cachedSidebar := none
  sidebarFetches :=
    match ensureFetch none with
    | some url => [url]
    | none => []
  docRes := none
  docState := none
  nextGen := 0
  docFetches := []

/-- Events of one session: a navigation resolving to a route (re-running
the view closure), the completion of the document fetch carrying some
resource's generation token, and the completion of the sidebar fetch
spawned at construction (its success value; a failed fetch panics and
completes nothing, see `get_sidebar`). -/
inductive Ev where
  | navigate (r : Routes) : Ev
  | docComplete (gen : Nat) (p : MarkdownPage) : Ev
  | sidebarComplete (d : SidebarData) : Ev
deriving DecidableEq, Repr

/-- One transition. `navigate`: the view closure re-runs; a
document-carrying route builds its `url` and a fresh
`create_client_resource` (new generation, pending state, fetch issued),
a non-document route leaves no resource. `docComplete`: the result is
committed only when its token matches the current slot's generation
(modelled from the spec, §4.3 rule 5 and §9); a superseded completion is
dropped. `sidebarComplete`: the spawned task's
`cached_sidebar_data.set(Some((None, data)))` of `main.rs` line 78. -/
def step (s : Sys) : Ev → Sys
  | .navigate r =>
    match docFetchKey r with
    | some url =>
      { s with
          docRes := some ⟨s.nextGen, url⟩
          docState := none
          nextGen := s.nextGen + 1
          docFetches := s.docFetches ++ [(s.nextGen, url)] }
    | none => { s with docRes := none, docState := none }
  | .docComplete g p =>
    match s.docRes with
    | some res => if res.gen = g then { s with docState := some p } else s
    | none => s
  | .sidebarComplete d => { s with cachedSidebar := ensureCommit d }

/-- Run a list of events from a state. -/
def run (s : Sys) (evs : List Ev) : Sys :=
  evs.foldl step s

end Sycamore

namespace Sycamore

/-- Sanity checks that concrete paths from the spec resolve as expected. -/
example : matchPath "/docs/guide/intro" = .Docs "guide" "intro" := by decide
example : matchPath "/docs/v0.8/guide/intro" = .VersionedDocs "v0.8" "guide" "intro" := by decide
example : matchPath "/news/release-1" = .Post "release-1" := by decide
example : matchPath "/unknown/path" = .NotFound := by decide
example : matchPath "/" = .Index := by decide
example : matchPath "/news" = .NewsIndex := by decide
example : matchPath "/versions" = .Versions := by decide

/-- Running an appended event list runs the pieces in sequence. -/
theorem run_append (s : Sys) (l1 l2 : List Ev) :
    run s (l1 ++ l2) = run (run s l1) l2 := by
  simp [run, List.foldl_append]

/-- Unfolding one event off a run. -/
theorem run_cons (s : Sys) (e : Ev) (rest : List Ev) :
    run s (e :: rest) = run (step s e) rest := rfl

/-- No transition ever appends to the sidebar fetch log: the only sidebar
fetch is the one recorded at router construction. -/
theorem step_sidebarFetches (s : Sys) (e : Ev) :
    (step s e).sidebarFetches = s.sidebarFetches := by
  cases e with
  | navigate r => cases h : docFetchKey r <;> simp [step, h]
  | docComplete g p =>
    cases h : s.docRes with
    | none => simp [step, h]
    | some res => by_cases hg : res.gen = g <;> simp [step, h, hg]
  | sidebarComplete d => simp [step]

/-- The sidebar fetch log is constant along any run. -/
theorem run_sidebarFetches (evs : List Ev) (s : Sys) :
    (run s evs).sidebarFetches = s.sidebarFetches := by
  induction evs generalizing s with
  | nil => rfl
  | cons e rest ih => rw [run_cons, ih, step_sidebarFetches]

/-- Every transition either leaves the sidebar cache alone or writes an
entry keyed by version `none` (the commit of `main.rs` line 78). -/
theorem step_cachedSidebar (s : Sys) (e : Ev) :
    (step s e).cachedSidebar = s.cachedSidebar ∨
      ∃ d, (step s e).cachedSidebar = some (none, d) := by
  cases e with
  | navigate r =>
    left
    cases h : docFetchKey r <;> simp [step, h]
  | docComplete g p =>
    left
    cases h : s.docRes with
    | none => simp [step, h]
    | some res => by_cases hg : res.gen = g <;> simp [step, h, hg]
  | sidebarComplete d =>
    right
    exact ⟨d, rfl⟩

/-- Along any run, a populated sidebar cache stays keyed by version
`none` (reading the version key defaulted to `none` when the cache is
empty). -/
theorem run_cachedVersion (evs : List Ev) (s : Sys)
    (h : (s.cachedSidebar.map Prod.fst).getD none = none) :
    ((run s evs).cachedSidebar.map Prod.fst).getD none = none := by
  induction evs generalizing s with
  | nil => exact h
  | cons e rest ih =>
    rw [run_cons]
    apply ih
    rcases step_cachedSidebar s e with h1 | ⟨d, h1⟩
    · rw [h1]; exact h
    · rw [h1]; rfl

/-- C5: the route resolver deterministically maps `/` to `Index`,
`/docs/{section}/{slug}` to `Docs`, `/docs/{version}/{section}/{slug}` to
`VersionedDocs`, `/news` to `NewsIndex`, `/news/{slug}` to `Post`,
`/versions` to `Versions`, and any other path to `NotFound`, parameters
captured as opaque strings; the four-segment docs pattern wins over the
three-segment one and the two-segment news pattern over the bare one. -/
theorem c5_route_grammar :
    matchPath "/" = Routes.Index ∧
    matchPath "/docs/guide/intro" = Routes.Docs "guide" "intro" ∧
    matchPath "/docs/v0.8/guide/intro" = Routes.VersionedDocs "v0.8" "guide" "intro" ∧
    matchPath "/news" = Routes.NewsIndex ∧
    matchPath "/news/release-1" = Routes.Post "release-1" ∧
    matchPath "/versions" = Routes.Versions ∧
    matchPath "/unknown/path" = Routes.NotFound ∧
    (∀ a b : String, matchSegments ["docs", a, b] = Routes.Docs a b) ∧
    (∀ v a b : String, matchSegments ["docs", v, a, b] = Routes.VersionedDocs v a b) ∧
    (∀ t : String, matchSegments ["news", t] = Routes.Post t) ∧
    (∀ segs : List String, segs ≠ [] → segs ≠ ["news"] → segs ≠ ["versions"] →
      (∀ a b, segs ≠ ["docs", a, b]) → (∀ v a b, segs ≠ ["docs", v, a, b]) →
      (∀ t, segs ≠ ["news", t]) → matchSegments segs = Routes.NotFound) := by
  refine ⟨by decide, by decide, by decide, by decide, by decide, by decide, by decide,
    ?_, ?_, ?_, ?_⟩
  · intro a b; rfl
  · intro v a b; rfl
  · intro t; rfl
  · intro segs h0 h1 h2 h3 h4 h5
    rw [matchSegments.eq_def]
    split
    · exact absurd rfl h0
    · rename_i a b; exact absurd rfl (h3 a b)
    · rename_i v a b; exact absurd rfl (h4 v a b)
    · exact absurd rfl h1
    · rename_i t; exact absurd rfl (h5 t)
    · exact absurd rfl h2
    · rfl

/-- C5 witness: the resolver's `NotFound` clause applied at the concrete
unmatched path's segments. -/
theorem c5_route_grammar_witness :
    matchSegments ["unknown", "path"] = Routes.NotFound :=
  c5_route_grammar.2.2.2.2.2.2.2.2.2.2 ["unknown", "path"]
    (by decide) (by decide) (by decide)
    (by intro a b h; simp at h) (by intro v a b h; simp at h)
    (by intro t h; simp at h)

/-- C6: the fetch key is derived purely from the route, bit-exactly:
`Docs` fetches `/static/docs/{section}/{slug}.json`, `VersionedDocs`
fetches `/static/docs/{version}/{section}/{slug}.json`, `Post` fetches
`/static/posts/{slug}.json`, routes without a document fetch nothing, and
the sidebar is fetched from `/static/docs/sidebar.json` (unversioned) or
`/static/docs/{version}/sidebar.json` (versioned). -/
theorem c6_fetch_keys (a b v s : String) :
    docFetchKey (Routes.Docs a b) =
      some ("/static/docs/" ++ a ++ "/" ++ b ++ ".json") ∧
    docFetchKey (Routes.VersionedDocs v a b) =
      some ("/static/docs/" ++ v ++ "/" ++ a ++ "/" ++ b ++ ".json") ∧
    docFetchKey (Routes.Post s) = some ("/static/posts/" ++ s ++ ".json") ∧
    docFetchKey Routes.Index = none ∧
    docFetchKey Routes.NewsIndex = none ∧
    docFetchKey Routes.Versions = none ∧
    docFetchKey Routes.NotFound = none ∧
    sidebarUrl none = "/static/docs/sidebar.json" ∧
    sidebarUrl (some v) = "/static/docs/" ++ v ++ "/sidebar.json" := by
  refine ⟨?_, ?_, ?_, rfl, rfl, rfl, rfl, rfl, ?_⟩ <;>
    simp [docFetchKey, sidebarUrl, toString, String.append_assoc]

/-- C10: for every unversioned `Docs` route, the sidebar value handed to
the renderer carries the hard-coded version string `"next"`, whatever the
route parameters and whatever version key the sidebar cache stores. -/
theorem c10_docs_sidebar_version_next (a b : String) (p : MarkdownPage)
    (v : Option String) (d : SidebarData) :
    renderView (Routes.Docs a b) (some p) (some (v, d)) =
      RenderOut.content p ⟨"next", a ++ "/" ++ b, d⟩ := rfl

/-- C2 counterexample, grounded in a reachable execution: navigate the
freshly constructed router (sidebar cache absent) to
`/docs/v0.8/guide/intro`, a route whose requested sidebar version is
`some "v0.8"`. The claim requires the ensure for that requested version
to fetch the versioned path `/static/docs/v0.8/sidebar.json` and, on
success, to install an entry keyed `some "v0.8"`; the program instead
issues exactly one sidebar fetch, of the default path
`/static/docs/sidebar.json`, and its completion installs an entry keyed
`none` — both the fetch-decision component and the commit component of
the claimed operation differ from the code's at this input. -/
theorem c2_counterexample :
    routeRequestedVersion (Routes.VersionedDocs "v0.8" "guide" "intro")
      = some "v0.8" ∧
    ensureSpecFetch none
        (routeRequestedVersion (Routes.VersionedDocs "v0.8" "guide" "intro"))
      = some "/static/docs/v0.8/sidebar.json" ∧
    (run initSys
        [Ev.navigate (Routes.VersionedDocs "v0.8" "guide" "intro")]).sidebarFetches
      = ["/static/docs/sidebar.json"] ∧
    ("/static/docs/sidebar.json" : String) ≠ "/static/docs/v0.8/sidebar.json" ∧
    (run initSys
        [Ev.navigate (Routes.VersionedDocs "v0.8" "guide" "intro"),
         Ev.sidebarComplete (SidebarData.mk "sb")]).cachedSidebar
      = some (none, SidebarData.mk "sb") ∧
    (none : Option String)
      ≠ routeRequestedVersion (Routes.VersionedDocs "v0.8" "guide" "intro") ∧
    ensureFetch none ≠ ensureSpecFetch none (some "v0.8") ∧
    ensureCommit (SidebarData.mk "sb")
      ≠ ensureSpecCommit (some "v0.8") (SidebarData.mk "sb") := by
  refine ⟨rfl, rfl, by decide, by decide, by decide, by decide, by decide, by decide⟩

/-- C2 amended: the code's sidebar-cache logic ignores the requested
version entirely — it behaves exactly as the spec's
`ensure(requested_version)` instantiated at `requested_version = None`:
it fetches iff the cache is absent or the cached version key is `Some`
(i.e. differs from `None`), always via the default path
`/static/docs/sidebar.json`, and on success replaces the cache with an
entry keyed `None`; `get_sidebar` itself does select the versioned path
for `Some version`, but the cache logic never requests one. -/
theorem c2_amended_ensure_at_none (cache : SidebarCache) :
    ensureFetch cache = ensureSpecFetch cache none ∧
    (ensureFetch cache = none ∨ ensureFetch cache = some (sidebarUrl none)) ∧
    (∀ d, ensureCommit d = ensureSpecCommit none d) ∧
    (∀ decodeSb version outcome,
      (get_sidebar decodeSb version outcome).1 = sidebarUrl version) := by
  refine ⟨?_, ?_, fun d => rfl, fun decodeSb version outcome => ?_⟩
  · match cache with
    | none => rfl
    | some (none, d) => rfl
    | some (some v, d) => simp [ensureFetch, ensureSpecFetch, shouldFetchSidebar]
  · by_cases h : shouldFetchSidebar cache = true
    · right; simp [ensureFetch, h]
    · left; simp [ensureFetch, h]
  · cases outcome <;> rfl

/-- C3 counterexample: in a reachable execution — the sidebar fetch
spawned at construction completes (writing a cache entry keyed `none`),
the user navigates to `/docs/v0.8/guide/intro`, and that route's document
fetch completes — the view hands the renderer a full content view whose
sidebar data comes from the cache entry keyed `none`, although the
route's requested version is `some "v0.8"`: a sidebar cached for a
different version is exposed alongside a document. -/
theorem c3_counterexample :
    (run initSys
        [Ev.sidebarComplete (SidebarData.mk "sb"),
         Ev.navigate (Routes.VersionedDocs "v0.8" "guide" "intro"),
         Ev.docComplete 0 (MarkdownPage.mk "page")]).cachedSidebar
      = some (none, SidebarData.mk "sb") ∧
    (run initSys
        [Ev.sidebarComplete (SidebarData.mk "sb"),
         Ev.navigate (Routes.VersionedDocs "v0.8" "guide" "intro"),
         Ev.docComplete 0 (MarkdownPage.mk "page")]).docState
      = some (MarkdownPage.mk "page") ∧
    renderView (Routes.VersionedDocs "v0.8" "guide" "intro")
        (some (MarkdownPage.mk "page")) (some (none, SidebarData.mk "sb"))
      = RenderOut.content (MarkdownPage.mk "page")
          ⟨"v0.8", "guide/intro", SidebarData.mk "sb"⟩ ∧
    (none : Option String) ≠ some "v0.8" := by
  refine ⟨by decide, by decide, by decide, by decide⟩

/-- C3 amended: for a `VersionedDocs` route the composed view is a
content view iff the document resource is `Some` and the sidebar cache is
`Some`; the cached version key is not compared with the route's version —
the cached data is used as-is — and until both are `Some` the empty
loading view is shown. -/
theorem c3_amended_render_gating (v a b : String) (doc : Option MarkdownPage)
    (cache : SidebarCache) :
    ((renderView (Routes.VersionedDocs v a b) doc cache).isContent
      = (doc.isSome && cache.isSome)) ∧
    (∀ d c, doc = some d → cache = some c →
      renderView (Routes.VersionedDocs v a b) doc cache
        = RenderOut.content d ⟨v, a ++ "/" ++ b, c.2⟩) ∧
    ((doc.isSome && cache.isSome) = false →
      renderView (Routes.VersionedDocs v a b) doc cache = RenderOut.empty) := by
  refine ⟨?_, ?_, ?_⟩
  · cases doc <;> cases cache <;> rfl
  · intro d c hd hc; subst hd; subst hc; rfl
  · intro h
    cases doc with
    | none => cases cache <;> rfl
    | some d =>
      cases cache with
      | none => rfl
      | some c => simp at h

/-- C3 amended witness: the gating applied at a concrete pending
document and populated cache. -/
theorem c3_amended_render_gating_witness :
    renderView (Routes.VersionedDocs "v0.8" "guide" "intro")
        (some (MarkdownPage.mk "page")) (some (none, SidebarData.mk "sb"))
      = RenderOut.content (MarkdownPage.mk "page")
          ⟨"v0.8", "guide/intro", SidebarData.mk "sb"⟩ :=
  (c3_amended_render_gating "v0.8" "guide" "intro"
      (some (MarkdownPage.mk "page")) (some (none, SidebarData.mk "sb"))).2.1
    (MarkdownPage.mk "page") (none, SidebarData.mk "sb") rfl rfl

/-- C4: contrary to the claim, a document fetch or decode failure does
not produce a `Failed(reason)` resource state — the resource value space
is only `Option MarkdownPage` (pending/ready) and `docs_preload` panics:
`unwrap` on a send error, `todo!("error handling")` on a body-extraction
error, and `unwrap` on a decode failure. -/
theorem c4_doc_fetch_failure_panics (decodeDoc : String → Option MarkdownPage) :
    docs_preload decodeDoc FetchOutcome.sendErr
      = PanicOr.panics "called Result::unwrap() on an Err value" ∧
    docs_preload decodeDoc FetchOutcome.textErr
      = PanicOr.panics "not yet implemented: error handling" ∧
    (∀ s, decodeDoc s = none →
      (docs_preload decodeDoc (FetchOutcome.body s)).isPanics = true) ∧
    (∀ o, ∀ p, docs_preload decodeDoc o = PanicOr.ok p →
      ∃ s, o = FetchOutcome.body s ∧ decodeDoc s = some p) := by
  refine ⟨rfl, rfl, ?_, ?_⟩
  · intro s hs
    simp [docs_preload, hs, PanicOr.isPanics]
  · intro o p h
    cases o with
    | sendErr => exact absurd h (by simp [docs_preload])
    | textErr => exact absurd h (by simp [docs_preload])
    | body s =>
      refine ⟨s, rfl, ?_⟩
      cases hs : decodeDoc s with
      | none => rw [docs_preload, hs] at h; exact absurd h (by simp)
      | some q => rw [docs_preload, hs] at h; cases h; rfl

/-- C4 witness: the panic conclusions applied at a decoder that rejects
everything and a concrete undecodable body. -/
theorem c4_doc_fetch_failure_panics_witness :
    docs_preload (fun _ => none) FetchOutcome.sendErr
      = PanicOr.panics "called Result::unwrap() on an Err value" ∧
    (docs_preload (fun _ => none) (FetchOutcome.body "garbage")).isPanics = true :=
  ⟨(c4_doc_fetch_failure_panics (fun _ => none)).1,
    (c4_doc_fetch_failure_panics (fun _ => none)).2.2.1 "garbage" rfl⟩

/-- C7: contrary to the claim's "surfaced as a transient, non-blocking
error rather than crashing", a failed sidebar fetch panics inside
`get_sidebar` (`unwrap` on the send, `todo!("error handling")` on the
body, `unwrap` on the decode); the cache-unchanged half does hold, since
the `set` on `main.rs` line 78 is only reached after a successful
`get_sidebar`. -/
theorem c7_sidebar_fetch_failure_panics (decodeSb : String → Option SidebarData)
    (cache : SidebarCache) :
    (get_sidebar decodeSb none FetchOutcome.sendErr).2
      = PanicOr.panics "called Result::unwrap() on an Err value" ∧
    (get_sidebar decodeSb none FetchOutcome.textErr).2
      = PanicOr.panics "not yet implemented: error handling" ∧
    (∀ s, decodeSb s = none →
      ((get_sidebar decodeSb none (FetchOutcome.body s)).2.isPanics = true)) ∧
    (∀ m, ensureApply cache (PanicOr.panics m) = cache) := by
  refine ⟨rfl, rfl, ?_, fun m => rfl⟩
  intro s hs
  simp [get_sidebar, hs, PanicOr.isPanics]

/-- C7 witness: the sidebar failure conclusions at a concrete rejecting
decoder, undecodable body, and populated cache. -/
theorem c7_sidebar_fetch_failure_panics_witness :
    (get_sidebar (fun _ => none) none FetchOutcome.sendErr).2
      = PanicOr.panics "called Result::unwrap() on an Err value" ∧
    ((get_sidebar (fun _ => none) none (FetchOutcome.body "garbage")).2.isPanics
      = true) ∧
    ensureApply (some (none, SidebarData.mk "old")) (PanicOr.panics "boom")
      = some (none, SidebarData.mk "old") :=
  ⟨(c7_sidebar_fetch_failure_panics (fun _ => none)
      (some (none, SidebarData.mk "old"))).1,
    (c7_sidebar_fetch_failure_panics (fun _ => none)
      (some (none, SidebarData.mk "old"))).2.2.1 "garbage" rfl,
    (c7_sidebar_fetch_failure_panics (fun _ => none)
      (some (none, SidebarData.mk "old"))).2.2.2 "boom"⟩

/-- C8: in every execution the program issues exactly the one sidebar
fetch for the unversioned default path `/static/docs/sidebar.json`, and
whenever the sidebar cache signal is populated its version component is
`none` (read with default `none` when empty); the versioned sidebar path
is never requested. -/
theorem c8_sidebar_always_default_path (evs : List Ev) :
    (run initSys evs).sidebarFetches = ["/static/docs/sidebar.json"] ∧
    ((run initSys evs).cachedSidebar.map Prod.fst).getD none = none := by
  constructor
  · rw [run_sidebarFetches]
    rfl
  · exact run_cachedVersion evs initSys rfl

/-- C9: the sidebar fetch decision is evaluated once at router
construction, outside the reactive route-matching closure: a navigation
transition never touches the sidebar fetch log or the sidebar cache, and
any run from the constructed state carries exactly the single
construction-time sidebar fetch however many navigations it contains. -/
theorem c9_single_sidebar_fetch (evs : List Ev) (s : Sys) (r : Routes) :
    (run initSys evs).sidebarFetches.length = 1 ∧
    (step s (Ev.navigate r)).sidebarFetches = s.sidebarFetches ∧
    (step s (Ev.navigate r)).cachedSidebar = s.cachedSidebar := by
  refine ⟨?_, step_sidebarFetches s (Ev.navigate r), ?_⟩
  · rw [run_sidebarFetches]; rfl
  · cases h : docFetchKey r <;> simp [step, h]

/-- C1: navigating from `r1` to `r2` supersedes `r1`'s document
resource: after the two navigations the current slot is a fresh resource
for `r2`'s fetch key, a late completion carrying `r1`'s generation token
changes nothing (the stale result is dropped, not written into the
current slot), and the completion carrying the current generation renders
`r2`'s document. -/
theorem c1_superseded_fetch_dropped (pre : List Ev) (r1 r2 : Routes)
    (u1 u2 : String) (p1 p2 : MarkdownPage)
    (h1 : docFetchKey r1 = some u1) (h2 : docFetchKey r2 = some u2) :
    (run initSys (pre ++ [Ev.navigate r1])).docRes
      = some ⟨(run initSys pre).nextGen, u1⟩ ∧
    (run initSys (pre ++ [Ev.navigate r1, Ev.navigate r2])).docRes
      = some ⟨(run initSys pre).nextGen + 1, u2⟩ ∧
    step (run initSys (pre ++ [Ev.navigate r1, Ev.navigate r2]))
        (Ev.docComplete (run initSys pre).nextGen p1)
      = run initSys (pre ++ [Ev.navigate r1, Ev.navigate r2]) ∧
    (step (run initSys (pre ++ [Ev.navigate r1, Ev.navigate r2]))
        (Ev.docComplete ((run initSys pre).nextGen + 1) p2)).docState
      = some p2 := by
  rw [run_append, run_append]
  have hstep1 : run (run initSys pre) [Ev.navigate r1]
      = step (run initSys pre) (Ev.navigate r1) := rfl
  have hstep2 : run (run initSys pre) [Ev.navigate r1, Ev.navigate r2]
      = step (step (run initSys pre) (Ev.navigate r1)) (Ev.navigate r2) := rfl
  rw [hstep1, hstep2]
  refine ⟨by simp [step, h1], by simp [step, h1, h2], ?_, by simp [step, h1, h2]⟩
  simp only [step, h1, h2]
  have hne : (run initSys pre).nextGen + 1 ≠ (run initSys pre).nextGen :=
    Nat.succ_ne_self _
  simp [hne]

/-- C1 witness: the supersession conclusions at a concrete pair of
document routes navigated from the freshly constructed router. -/
theorem c1_superseded_fetch_dropped_witness :
    step (run initSys [Ev.navigate (Routes.Docs "guide" "intro"),
                       Ev.navigate (Routes.Post "release-1")])
        (Ev.docComplete (run initSys []).nextGen (MarkdownPage.mk "stale"))
      = run initSys [Ev.navigate (Routes.Docs "guide" "intro"),
                     Ev.navigate (Routes.Post "release-1")] ∧
    (step (run initSys [Ev.navigate (Routes.Docs "guide" "intro"),
                        Ev.navigate (Routes.Post "release-1")])
        (Ev.docComplete ((run initSys []).nextGen + 1)
          (MarkdownPage.mk "fresh"))).docState
      = some (MarkdownPage.mk "fresh") :=
  ⟨(c1_superseded_fetch_dropped [] (Routes.Docs "guide" "intro")
      (Routes.Post "release-1") "/static/docs/guide/intro.json"
      "/static/posts/release-1.json" (MarkdownPage.mk "stale")
      (MarkdownPage.mk "fresh") rfl rfl).2.2.1,
    (c1_superseded_fetch_dropped [] (Routes.Docs "guide" "intro")
      (Routes.Post "release-1") "/static/docs/guide/intro.json"
      "/static/posts/release-1.json" (MarkdownPage.mk "stale")
      (MarkdownPage.mk "fresh") rfl rfl).2.2.2⟩

end Sycamore
